import Mathlib

/-!
Verification of the BLE_kardio firmware's BLE layer against its
natural-language specification.

The development shallowly embeds the firmware's C sources:

* src/app/src/BLE/GATT/spo2.c      (SFLOAT codec, SpO2 / PLX service)
* src/app/src/BLE/GATT/hrs.c       (Heart Rate service, unified-send variant)
* src/app/src/BLE/ble_advertising.c (advertising start/stop)
* src/app/src/BLE/ble_init.c       (stack enable/disable, connection callbacks)
* the Bluetooth manager variant with ble_manager_send_sensor_data /
  ble_manager_ensure_connection (the most complete manager in the repository)

Machine integers are modelled as Nat / Int with explicit wrapping where the C
types matter.  The external Bluetooth host is an oracle (`Host`) supplying the
error codes of bt_enable / bt_disable / bt_le_adv_start / bt_le_adv_stop /
bt_gatt_service_register, and an environment (`Env`) saying at which poll step
the host's connected callback fires, if ever.  Radio-facing side effects
(notify, indicate, host calls) are recorded in an event trace.
-/

namespace BLEKardio

/-- Zephyr errno value EBUSY (lib/libc/minimal/include/errno.h). -/
def EBUSY : Int := 16

/-- Zephyr errno value ETIMEDOUT. -/
def ETIMEDOUT : Int := 116

/-- BT_GATT_CCC_NOTIFY bit of a CCC value. -/
def BT_GATT_CCC_NOTIFY : Nat := 1

/-- BT_GATT_CCC_INDICATE bit of a CCC value. -/
def BT_GATT_CCC_INDICATE : Nat := 2

/-- Timeout constants of the Bluetooth manager (ble_manager.c, unified-send
variant): DEFAULT_CONNECTION_TIMEOUT_MS. -/
def DEFAULT_CONNECTION_TIMEOUT_MS : Nat := 10000

/-- FIRST_CONNECTION_TIMEOUT_MS. -/
def FIRST_CONNECTION_TIMEOUT_MS : Nat := 60000

/-- DEFAULT_NOTIFICATION_TIMEOUT_MS (the subscription grace delay). -/
def DEFAULT_NOTIFICATION_TIMEOUT_MS : Nat := 500

/-- Observable side effects: calls into the Bluetooth host radio and GATT
transmissions.  Connection handles are identified by a Nat. -/
inductive Ev where
  | btEnable : Ev
  | btDisable : Ev
  | advStart : Ev
  | advStop : Ev
  | connWait : Nat → Ev
  | hrsNotify : Option Nat → List Nat → Ev
  | spo2Notify : Option Nat → List Nat → Ev
  | spo2Indicate : Nat → List Nat → Ev
deriving DecidableEq

/-- Is the event a GATT transmission (notify or indicate) to a peer? -/
def Ev.isTx : Ev → Bool
  | Ev.hrsNotify _ _ => true
  | Ev.spo2Notify _ _ => true
  | Ev.spo2Indicate _ _ => true
  | _ => false

/-- The payload bytes carried by a GATT transmission event. -/
def Ev.payload : Ev → Option (List Nat)
  | Ev.hrsNotify _ d => some d
  | Ev.spo2Notify _ d => some d
  | Ev.spo2Indicate _ d => some d
  | _ => none

/-- The connection-wait timeouts (in ms) announced in a trace. -/
def connWaits (l : List Ev) : List Nat :=
  l.filterMap fun ev =>
    match ev with
    | Ev.connWait t => some t
    | _ => none

/-- The external Bluetooth host stack, as an oracle of error codes returned by
its operations (0 = success). -/
structure Host where
  btEnableErr : Int
  advStartErr : Int
  advStopErr : Int
  btDisableErr : Int
  gattRegisterErr : Int
  gattUnregisterErr : Int
deriving DecidableEq

/-- The firmware's process-wide mutable state: the static variables of
ble_init.c (bt_stack_enabled, has_connections), ble_advertising.c
(advertising_active), the LED, ble_manager.c (first_connection_attempted),
spo2.c (notifications_enabled, indications_enabled, current_conn) and hrs.c
(current_conn). -/
structure St where
  btStackEnabled : Bool
  hasConnections : Bool
  advertisingActive : Bool
  ledOn : Bool
  firstConnectionAttempted : Bool
  spo2NotificationsEnabled : Bool
  spo2IndicationsEnabled : Bool
  spo2CurrentConn : Option Nat
  hrsCurrentConn : Option Nat
deriving DecidableEq

/-- The state at boot: every static flag is zero-initialized, no connection. -/
def St.boot : St :=
  { btStackEnabled := false
    hasConnections := false
    advertisingActive := false
    ledOn := false
    firstConnectionAttempted := false
    spo2NotificationsEnabled := false
    spo2IndicationsEnabled := false
    spo2CurrentConn := none
    hrsCurrentConn := none }

/-- Result of an int-returning operation: the returned error code, the state
after the call, and the emitted events. -/
structure R where
  ret : Int
  st : St
  evs : List Ev
deriving DecidableEq

/-- sys_put_le16: a 16-bit value as two little-endian bytes. -/
def le16 (x : Nat) : List Nat := [x % 256, x / 256 % 256]

/-- The C (int16_t) cast of the (integral) float input, modelled as the
two's-complement wrap at 16 bits that the target toolchain produces. -/
def toInt16 (v : Int) : Int :=
  let r := v % 65536
  if r ≥ 32768 then r - 65536 else r

/-- float_to_sfloat (spo2.c): IEEE 11073 SFLOAT with exponent fixed at 0.
Input 0.0 encodes to the reserved NRes value 0x07FF; otherwise the mantissa is
the input cast to int16_t, clamped to [-2048, 2047], and packed into bits 0-11
in two's complement (the mask with 0x0FFF).  The callers only pass exact small
integral floats, so the float argument is modelled as an Int. -/
def float_to_sfloat (value : Int) : Nat :=
  if value = 0 then 0x07FF
  else
    let mantissa := toInt16 value
    let mantissa2 :=
      if mantissa < -2048 then -2048
      else if mantissa > 2047 then 2047
      else mantissa
    Int.toNat (mantissa2 % 4096)

/-- The 7-byte PLX Continuous Measurement payload built by spo2_send after
clamping: flags 0x03, SFLOAT SpO2 little-endian, SFLOAT pulse rate
little-endian, measurement status 0x0001 little-endian. -/
def spo2_payload (spo2Value pulseRate : Nat) : List Nat :=
  0x03 :: le16 (float_to_sfloat (Int.ofNat spo2Value)) ++
    le16 (float_to_sfloat (Int.ofNat pulseRate)) ++ le16 0x0001

/-- spo2_send (spo2.c): no-op unless notifications or indications are enabled;
clamps spo2_value to 100 and pulse_rate to 300 (logged, not failed); with a
bound connection prefers indicate over notify; with none falls back to a
broadcast notify (indicate needs a concrete connection). -/
def spo2_send (s : St) (spo2Value pulseRate : Nat) : List Ev :=
  if !s.spo2NotificationsEnabled && !s.spo2IndicationsEnabled then []
  else
    let v := if spo2Value > 100 then 100 else spo2Value
    let p := if pulseRate > 300 then 300 else pulseRate
    let data := spo2_payload v p
    match s.spo2CurrentConn with
    | some c =>
      if s.spo2IndicationsEnabled then [Ev.spo2Indicate c data]
      else if s.spo2NotificationsEnabled then [Ev.spo2Notify (some c) data]
      else []
    | none =>
      if s.spo2IndicationsEnabled then [Ev.spo2Notify none data]
      else if s.spo2NotificationsEnabled then [Ev.spo2Notify none data]
      else []

/-- spo2_set_connection. -/
def spo2_set_connection (conn : Option Nat) (s : St) : St :=
  { s with spo2CurrentConn := conn }

/-- spo2_ccc_cfg_changed: the CCC write callback recomputes both flags from
the written value's NOTIFY and INDICATE bits. -/
def spo2_ccc_cfg_changed (value : Nat) (s : St) : St :=
  { s with
    spo2NotificationsEnabled := Nat.land value BT_GATT_CCC_NOTIFY != 0
    spo2IndicationsEnabled := Nat.land value BT_GATT_CCC_INDICATE != 0 }

/-- spo2_service_register: initializes the attribute table and registers it
with the host (bt_gatt_service_register, whose error it returns verbatim).
It does not touch the subscription flags or the bound peer connection. -/
def spo2_service_register (h : Host) (s : St) : Int × St :=
  (h.gattRegisterErr, s)

/-- spo2_service_unregister: bt_gatt_service_unregister, error returned
verbatim; the tracked state is untouched. -/
def spo2_service_unregister (h : Host) (s : St) : Int × St :=
  (h.gattUnregisterErr, s)

/-- hrs_send (hrs.c, unified-send variant): clamps the heart rate to uint8,
builds the 2-byte HRS measurement [flags 0x06, value] and notifies the bound
peer, or broadcasts when none is bound.  There is no subscription gate; the
host gates delivery through the characteristic's CCC. -/
def hrs_send (s : St) (heartrateValue : Nat) : List Ev :=
  let hrValue := if heartrateValue > 255 then 255 else heartrateValue
  [Ev.hrsNotify s.hrsCurrentConn [0x06, hrValue]]

/-- hrs_set_connection. -/
def hrs_set_connection (conn : Option Nat) (s : St) : St :=
  { s with hrsCurrentConn := conn }

/-- ble_led_set (ble_init.c): the radio status indicator. -/
def ble_led_set (b : Bool) (s : St) : St := { s with ledOn := b }

/-- ble_advertising_start (ble_advertising.c): no-op success when already
active; otherwise calls bt_le_adv_start and records activity on success. -/
def ble_advertising_start (h : Host) (s : St) : R :=
  if s.advertisingActive then { ret := 0, st := s, evs := [] }
  else if h.advStartErr ≠ 0 then
    { ret := h.advStartErr, st := s, evs := [Ev.advStart] }
  else
    { ret := 0, st := { s with advertisingActive := true }, evs := [Ev.advStart] }

/-- ble_advertising_stop (src/app variant): calls bt_le_adv_stop even when the
flag says inactive, always clears the active flag, and never propagates the
host's error. -/
def ble_advertising_stop (h : Host) (s : St) : R :=
  if !s.advertisingActive then { ret := 0, st := s, evs := [Ev.advStop] }
  else
    { ret := 0, st := { s with advertisingActive := false }, evs := [Ev.advStop] }

/-- ble_enable_stack (ble_init.c): no-op success when already enabled;
otherwise bt_enable (error propagated, LED off), LED on, advertising started
(error propagated, LED off), and the enabled flag set last. -/
def ble_enable_stack (h : Host) (s : St) : R :=
  if s.btStackEnabled then { ret := 0, st := ble_led_set true s, evs := [] }
  else if h.btEnableErr ≠ 0 then
    { ret := h.btEnableErr, st := ble_led_set false s, evs := [Ev.btEnable] }
  else
    let s1 := ble_led_set true s
    let r := ble_advertising_start h s1
    if r.ret ≠ 0 then
      { ret := r.ret, st := ble_led_set false r.st, evs := Ev.btEnable :: r.evs }
    else
      { ret := 0, st := { r.st with btStackEnabled := true },
        evs := Ev.btEnable :: r.evs }

/-- ble_disable_stack (ble_init.c): no-op success when already disabled;
refuses with -EBUSY while a connection is active (keeping the LED on and
touching nothing else); otherwise LED off, advertising stopped, bt_disable
(error propagated), enabled flag cleared last. -/
def ble_disable_stack (h : Host) (s : St) : R :=
  if !s.btStackEnabled then { ret := 0, st := ble_led_set false s, evs := [] }
  else if s.hasConnections then
    { ret := -EBUSY, st := ble_led_set true s, evs := [] }
  else
    let s1 := ble_led_set false s
    let r1 := ble_advertising_stop h s1
    if h.btDisableErr ≠ 0 then
      { ret := h.btDisableErr, st := r1.st, evs := r1.evs ++ [Ev.btDisable] }
    else
      { ret := 0, st := { r1.st with btStackEnabled := false },
        evs := r1.evs ++ [Ev.btDisable] }

/-- The connected callback (ble_init.c): on a successful connection marks the
connection present, cancels any pending advertising restart, stops
advertising, and binds the handle into both GATT services.  (The optional
security bump is a host-side effect with no tracked state.)  On a connection
error it only logs. -/
def connected (h : Host) (conn : Nat) (err : Nat) (s : St) : St × List Ev :=
  if err ≠ 0 then (s, [])
  else
    let s1 := { s with hasConnections := true }
    let r := ble_advertising_stop h s1
    let s2 := hrs_set_connection (some conn) r.st
    let s3 := spo2_set_connection (some conn) s2
    (s3, r.evs)

/-- The environment of a manager run: the host oracle, at which poll step (if
any) the host's connected callback fires during the connection wait, and
whether a connection appears during disable_if_idle's settle delay. -/
structure Env where
  host : Host
  arrival : Option (Nat × Nat)
  raceConn : Option Nat
deriving DecidableEq

/-- One k_msleep(1000) step of the connection wait: the host's connected
callback fires during this sleep exactly when the environment says so. -/
def sleepStep (e : Env) (idx : Nat) (s : St) : St × List Ev :=
  match e.arrival with
  | some (k, c) => if k = idx then connected e.host c 0 s else (s, [])
  | none => (s, [])

/-- The polling loop of ble_manager_enable_and_wait: while wait_time is below
the timeout, break as connected if a connection is present, else sleep one
second.  The loop exits after the last sleep without a final re-check, exactly
as the source does.  fuel is the remaining number of iterations. -/
def pollConn (e : Env) : Nat → Nat → St → Bool × St × List Ev
  | 0, _, s => (false, s, [])
  | fuel + 1, idx, s =>
    if s.hasConnections then (true, s, [])
    else
      let step := sleepStep e idx s
      let rest := pollConn e fuel (idx + 1) step.1
      (rest.1, rest.2.1, step.2 ++ rest.2.2)

/-- The wait phase of ble_manager_enable_and_wait: announce the timeout, poll
once per second for ceil(timeout/1000) iterations, and return -ETIMEDOUT if no
connection was observed. -/
def ble_manager_wait_phase (e : Env) (connectionTimeoutMs : Nat) (s : St) : R :=
  let loop := pollConn e ((connectionTimeoutMs + 999) / 1000) 0 s
  if loop.1 then
    { ret := 0, st := loop.2.1, evs := Ev.connWait connectionTimeoutMs :: loop.2.2 }
  else
    { ret := -ETIMEDOUT, st := loop.2.1,
      evs := Ev.connWait connectionTimeoutMs :: loop.2.2 }

/-- ble_manager_enable_and_wait: immediate success when already enabled and
connected; otherwise enables the stack if needed (host error propagated) and
runs the connection wait; on success sleeps the subscription grace delay. -/
def ble_manager_enable_and_wait (e : Env) (connectionTimeoutMs : Nat)
    (notifTimeoutMs : Nat) (s : St) : R :=
  if s.btStackEnabled then
    if s.hasConnections then { ret := 0, st := s, evs := [] }
    else ble_manager_wait_phase e connectionTimeoutMs s
  else
    let r := ble_enable_stack e.host s
    if r.ret ≠ 0 then r
    else
      let w := ble_manager_wait_phase e connectionTimeoutMs r.st
      { ret := w.ret, st := w.st, evs := r.evs ++ w.evs }

/-- ble_manager_disable_if_idle (unified-send manager): no-op success when
already disabled or while connected; otherwise sleeps the 200ms settle delay,
re-checks for a connection that raced in during the delay (aborting the
disable if one did), then disables the stack, propagating its error. -/
def ble_manager_disable_if_idle (e : Env) (s : St) : R :=
  if !s.btStackEnabled then { ret := 0, st := s, evs := [] }
  else if s.hasConnections then { ret := 0, st := s, evs := [] }
  else
    let race :=
      match e.raceConn with
      | some c => connected e.host c 0 s
      | none => (s, [])
    if race.1.hasConnections then { ret := 0, st := race.1, evs := race.2 }
    else
      let r := ble_disable_stack e.host race.1
      { ret := r.ret, st := r.st, evs := race.2 ++ r.evs }

/-- ble_manager_on_disconnected: the manager disables Bluetooth when idle. -/
def ble_manager_on_disconnected (e : Env) (s : St) : R :=
  ble_manager_disable_if_idle e s

/-- The disconnected callback (ble_init.c): unbinds the connection from both
GATT services, marks no connection, cancels any pending advertising restart,
and asks the manager to power down when idle. -/
def disconnected (e : Env) (conn : Nat) (reason : Nat) (s : St) : St × List Ev :=
  let s1 := hrs_set_connection none s
  let s2 := spo2_set_connection none s1
  let s3 := { s2 with hasConnections := false }
  let r := ble_manager_on_disconnected e s3
  (r.st, r.evs)

/-- The wait-if-disconnected tail of ble_manager_ensure_connection: with no
active connection, pick the extended timeout on the first-ever attempt
(latching first_connection_attempted), wait, and on timeout disable the radio
and report -ETIMEDOUT. -/
def ensure_after_enable (e : Env) (s1 : St) : R :=
  if !s1.hasConnections then
    let cto :=
      if !s1.firstConnectionAttempted then FIRST_CONNECTION_TIMEOUT_MS
      else DEFAULT_CONNECTION_TIMEOUT_MS
    let s2 :=
      if !s1.firstConnectionAttempted then { s1 with firstConnectionAttempted := true }
      else s1
    let w := ble_manager_enable_and_wait e cto DEFAULT_NOTIFICATION_TIMEOUT_MS s2
    if w.ret ≠ 0 then
      let d := ble_manager_disable_if_idle e w.st
      { ret := -ETIMEDOUT, st := d.st, evs := w.evs ++ d.evs }
    else { ret := 0, st := w.st, evs := w.evs }
  else { ret := 0, st := s1, evs := [] }

/-- ble_manager_ensure_connection: enable the stack if needed (host error
propagated), then wait for a connection unless one is already present. -/
def ble_manager_ensure_connection (e : Env) (s : St) : R :=
  if !s.btStackEnabled then
    let r := ble_enable_stack e.host s
    if r.ret ≠ 0 then r
    else
      let w := ensure_after_enable e r.st
      { ret := w.ret, st := w.st, evs := r.evs ++ w.evs }
  else ensure_after_enable e s

/-- ble_manager_send_sensor_data: ensure a connection (propagating its error),
send the heart rate to HRS, send SpO2 (narrowed to uint8) plus the heart rate
to the SpO2 service, wait the flush delay, then disable the radio if idle. -/
def ble_manager_send_sensor_data (e : Env) (heartrate spo2 : Nat) (s : St) : R :=
  let r := ble_manager_ensure_connection e s
  if r.ret ≠ 0 then r
  else
    let evH := hrs_send r.st heartrate
    let spo2Value := if spo2 > 255 then 255 else spo2
    let evS := spo2_send r.st spo2Value heartrate
    let d := ble_manager_disable_if_idle e r.st
    { ret := 0, st := d.st, evs := r.evs ++ evH ++ evS ++ d.evs }

/-- ble_manager_wait_for_first_connection: enable the stack, wait with the
extended timeout, and in both outcomes latch first_connection_attempted; a
timeout is reported as success (power-save transition). -/
def ble_manager_wait_for_first_connection (e : Env) (s : St) : R :=
  let r := ble_enable_stack e.host s
  if r.ret ≠ 0 then r
  else
    let w := ble_manager_enable_and_wait e FIRST_CONNECTION_TIMEOUT_MS
      DEFAULT_NOTIFICATION_TIMEOUT_MS r.st
    if w.ret ≠ 0 then
      let d := ble_manager_disable_if_idle e w.st
      { ret := 0, st := { d.st with firstConnectionAttempted := true },
        evs := r.evs ++ w.evs ++ d.evs }
    else
      { ret := 0, st := { w.st with firstConnectionAttempted := true },
        evs := r.evs ++ w.evs }

/-- The sequential reachable states of the firmware: from boot, any
interleaving of the public manager operations, the host's connection
callbacks (a central can only connect while the peripheral advertises), the
SpO2 CCC writes, and SpO2 service (un)registration. -/
inductive Reachable : St → Prop where
  | boot : Reachable St.boot
  | send (e : Env) (hr sp : Nat) {s : St} :
      Reachable s → Reachable (ble_manager_send_sensor_data e hr sp s).st
  | waitFirst (e : Env) {s : St} :
      Reachable s → Reachable (ble_manager_wait_for_first_connection e s).st
  | disableIdle (e : Env) {s : St} :
      Reachable s → Reachable (ble_manager_disable_if_idle e s).st
  | connectEvt (h : Host) (c err : Nat) {s : St} :
      Reachable s → s.advertisingActive = true →
      Reachable (connected h c err s).1
  | disconnectEvt (e : Env) (c reason : Nat) {s : St} :
      Reachable s → Reachable (disconnected e c reason s).1
  | cccEvt (v : Nat) {s : St} :
      Reachable s → Reachable (spo2_ccc_cfg_changed v s)
  | spo2Reg (h : Host) {s : St} :
      Reachable s → Reachable (spo2_service_register h s).2
  | spo2Unreg (h : Host) {s : St} :
      Reachable s → Reachable (spo2_service_unregister h s).2

/-- The Manager's hard invariant (spec section 3): a live connection implies
the radio is enabled, and so does active advertising. -/
def Inv (s : St) : Prop :=
  (s.hasConnections = true → s.btStackEnabled = true) ∧
  (s.advertisingActive = true → s.btStackEnabled = true)

/-- An all-success host oracle. -/
def hostOK : Host :=
  { btEnableErr := 0, advStartErr := 0, advStopErr := 0, btDisableErr := 0,
    gattRegisterErr := 0, gattUnregisterErr := 0 }

/-- Environment in which no peer ever appears. -/
def envNoPeer : Env := { host := hostOK, arrival := none, raceConn := none }

/-- Environment in which a peer (handle 7) connects during the first poll. -/
def envPeerAt0 : Env := { host := hostOK, arrival := some (0, 7), raceConn := none }

/-- A state with a live peer (handle 7) subscribed to SpO2 notify and indicate
(CCC value 3): the stack was enabled, the peer connected, and it wrote the
CCC. -/
def spo2SubscribedSt : St :=
  spo2_ccc_cfg_changed 3 (connected hostOK 7 0 (ble_enable_stack hostOK St.boot).st).1

/-- The state after unregistering the SpO2 service mid-run, while the peer of
`spo2SubscribedSt` is still connected and subscribed. -/
def spo2ReRegPre : St := (spo2_service_unregister hostOK spo2SubscribedSt).2

/-- A reachable state with an active connection, produced by sending sensor
data while a peer connects during the first poll step. -/
def connectedDemoSt : St := (ble_manager_send_sensor_data envPeerAt0 75 97 St.boot).st

/-! ### Basic lemmas about traces and the primitive operations -/

lemma connWaits_append (l1 l2 : List Ev) :
    connWaits (l1 ++ l2) = connWaits l1 ++ connWaits l2 := by
  simp [connWaits]

lemma ble_advertising_stop_eq (h : Host) (s : St) :
    ble_advertising_stop h s =
      { ret := 0, st := { s with advertisingActive := false }, evs := [Ev.advStop] } := by
  rcases s with ⟨a1, a2, a3, a4, a5, a6, a7, a8, a9⟩
  by_cases hc : a3 <;> simp [ble_advertising_stop, hc]

lemma connected_eq (h : Host) (c err : Nat) (s : St) :
    connected h c err s =
      if err = 0 then
        ({ s with
            hasConnections := true
            advertisingActive := false
            spo2CurrentConn := some c
            hrsCurrentConn := some c }, [Ev.advStop])
      else (s, []) := by
  simp only [connected, ble_advertising_stop_eq, hrs_set_connection,
    spo2_set_connection]
  by_cases he : err = 0 <;> simp [he]

lemma connected_facts (h : Host) (c err : Nat) (s : St) :
    (connected h c err s).1.btStackEnabled = s.btStackEnabled ∧
    (connected h c err s).1.firstConnectionAttempted = s.firstConnectionAttempted ∧
    connWaits (connected h c err s).2 = [] ∧
    (Inv s → s.btStackEnabled = true → Inv (connected h c err s).1) := by
  rw [connected_eq]
  by_cases he : err = 0
  · refine ⟨by simp [he], by simp [he], by simp [he, connWaits], ?_⟩
    intro _ hen
    simp [he, Inv, hen]
  · refine ⟨by simp [he], by simp [he], by simp [he, connWaits], ?_⟩
    intro hi _
    simpa [he] using hi

lemma sleepStep_facts (e : Env) (idx : Nat) (s : St) :
    (sleepStep e idx s).1.btStackEnabled = s.btStackEnabled ∧
    (sleepStep e idx s).1.firstConnectionAttempted = s.firstConnectionAttempted ∧
    connWaits (sleepStep e idx s).2 = [] ∧
    (Inv s → s.btStackEnabled = true → Inv (sleepStep e idx s).1) := by
  unfold sleepStep
  rcases ha : e.arrival with _ | ⟨k, c⟩
  · refine ⟨by simp [ha], by simp [ha], by simp [ha, connWaits], ?_⟩
    intro hi _
    simpa [ha] using hi
  · by_cases hk : k = idx
    · simpa [ha, hk] using connected_facts e.host c 0 s
    · refine ⟨by simp [ha, hk], by simp [ha, hk], by simp [ha, hk, connWaits], ?_⟩
      intro hi _
      simpa [ha, hk] using hi

lemma pollConn_facts (e : Env) (fuel idx : Nat) (s : St) :
    (pollConn e fuel idx s).2.1.btStackEnabled = s.btStackEnabled ∧
    (pollConn e fuel idx s).2.1.firstConnectionAttempted = s.firstConnectionAttempted ∧
    connWaits (pollConn e fuel idx s).2.2 = [] ∧
    (Inv s → s.btStackEnabled = true → Inv (pollConn e fuel idx s).2.1) := by
  induction fuel generalizing idx s with
  | zero =>
    refine ⟨rfl, rfl, rfl, ?_⟩
    exact fun hi _ => hi
  | succ n ih =>
    by_cases hc : s.hasConnections
    · refine ⟨by simp [pollConn, hc], by simp [pollConn, hc],
        by simp [pollConn, hc, connWaits], ?_⟩
      intro hi _
      simpa [pollConn, hc] using hi
    · obtain ⟨h1, h2, h3, h4⟩ := sleepStep_facts e idx s
      obtain ⟨g1, g2, g3, g4⟩ := ih (idx + 1) (sleepStep e idx s).1
      have hup : pollConn e (n + 1) idx s =
          ((pollConn e n (idx + 1) (sleepStep e idx s).1).1,
           (pollConn e n (idx + 1) (sleepStep e idx s).1).2.1,
           (sleepStep e idx s).2 ++ (pollConn e n (idx + 1) (sleepStep e idx s).1).2.2) := by
        simp [pollConn, hc]
      rw [hup]
      refine ⟨g1.trans h1, g2.trans h2, ?_, ?_⟩
      · simp [connWaits_append, g3, h3]
      · intro hi hen
        exact g4 (h4 hi hen) (h1.trans hen)

lemma pollConn_no_arrival (e : Env) (fuel idx : Nat) (s : St)
    (hA : e.arrival = none) (hC : s.hasConnections = false) :
    pollConn e fuel idx s = (false, s, []) := by
  induction fuel generalizing idx with
  | zero => rfl
  | succ n ih => simp [pollConn, hC, sleepStep, hA, ih]

lemma connWaits_cons_connWait (t : Nat) (l : List Ev) :
    connWaits (Ev.connWait t :: l) = t :: connWaits l := by
  simp [connWaits]

lemma wait_phase_facts (e : Env) (cto : Nat) (s : St) :
    (ble_manager_wait_phase e cto s).st.btStackEnabled = s.btStackEnabled ∧
    (ble_manager_wait_phase e cto s).st.firstConnectionAttempted = s.firstConnectionAttempted ∧
    connWaits (ble_manager_wait_phase e cto s).evs = [cto] ∧
    (Inv s → s.btStackEnabled = true → Inv (ble_manager_wait_phase e cto s).st) := by
  obtain ⟨h1, h2, h3, h4⟩ := pollConn_facts e ((cto + 999) / 1000) 0 s
  have hst : (ble_manager_wait_phase e cto s).st =
      (pollConn e ((cto + 999) / 1000) 0 s).2.1 := by
    unfold ble_manager_wait_phase
    dsimp only
    split <;> rfl
  have hevs : (ble_manager_wait_phase e cto s).evs =
      Ev.connWait cto :: (pollConn e ((cto + 999) / 1000) 0 s).2.2 := by
    unfold ble_manager_wait_phase
    dsimp only
    split <;> rfl
  refine ⟨by rw [hst]; exact h1, by rw [hst]; exact h2, ?_, ?_⟩
  · rw [hevs, connWaits_cons_connWait, h3]
  · intro hi hen
    rw [hst]
    exact h4 hi hen

lemma enable_stack_facts (h : Host) (s : St) :
    (ble_enable_stack h s).st.firstConnectionAttempted = s.firstConnectionAttempted ∧
    (ble_enable_stack h s).st.hasConnections = s.hasConnections ∧
    connWaits (ble_enable_stack h s).evs = [] ∧
    (Inv s → Inv (ble_enable_stack h s).st) ∧
    ((ble_enable_stack h s).ret = 0 → (ble_enable_stack h s).st.btStackEnabled = true) := by
  rcases s with ⟨a1, a2, a3, a4, a5, a6, a7, a8, a9⟩
  cases a1 <;> cases a3 <;> by_cases hbe : h.btEnableErr = 0 <;>
    by_cases hadv : h.advStartErr = 0 <;>
      simp_all [ble_enable_stack, ble_advertising_start, ble_led_set, Inv, connWaits]

lemma disable_stack_facts (h : Host) (s : St) :
    (ble_disable_stack h s).st.firstConnectionAttempted = s.firstConnectionAttempted ∧
    connWaits (ble_disable_stack h s).evs = [] ∧
    (Inv s → Inv (ble_disable_stack h s).st) := by
  rcases s with ⟨a1, a2, a3, a4, a5, a6, a7, a8, a9⟩
  cases a1 <;> cases a2 <;> cases a3 <;> by_cases hbd : h.btDisableErr = 0 <;>
    simp_all [ble_disable_stack, ble_advertising_stop, ble_led_set, Inv, connWaits]

lemma disable_if_idle_facts (e : Env) (s : St) :
    (ble_manager_disable_if_idle e s).st.firstConnectionAttempted = s.firstConnectionAttempted ∧
    connWaits (ble_manager_disable_if_idle e s).evs = [] ∧
    (Inv s → Inv (ble_manager_disable_if_idle e s).st) := by
  cases hEn : s.btStackEnabled
  · refine ⟨by simp [ble_manager_disable_if_idle, hEn],
      by simp [ble_manager_disable_if_idle, hEn, connWaits], ?_⟩
    intro hi
    simpa [ble_manager_disable_if_idle, hEn] using hi
  · cases hC : s.hasConnections
    · rcases hR : e.raceConn with _ | c
      · obtain ⟨d1, d2, d3⟩ := disable_stack_facts e.host s
        refine ⟨by simp [ble_manager_disable_if_idle, hEn, hC, hR, d1],
          by simp [ble_manager_disable_if_idle, hEn, hC, hR, d2], ?_⟩
        intro hi
        have := d3 hi
        simpa [ble_manager_disable_if_idle, hEn, hC, hR] using this
      · obtain ⟨c1, c2, c3, c4⟩ := connected_facts e.host c 0 s
        obtain ⟨d1, d2, d3⟩ := disable_stack_facts e.host (connected e.host c 0 s).1
        by_cases htc : (connected e.host c 0 s).1.hasConnections
        · refine ⟨by simp [ble_manager_disable_if_idle, hEn, hC, hR, htc, c2],
            by simp [ble_manager_disable_if_idle, hEn, hC, hR, htc, c3], ?_⟩
          intro hi
          have := c4 hi hEn
          simpa [ble_manager_disable_if_idle, hEn, hC, hR, htc] using this
        · refine ⟨by simp [ble_manager_disable_if_idle, hEn, hC, hR, htc, d1, c2],
            by simp [ble_manager_disable_if_idle, hEn, hC, hR, htc, connWaits_append,
              c3, d2], ?_⟩
          intro hi
          have := d3 (c4 hi hEn)
          simpa [ble_manager_disable_if_idle, hEn, hC, hR, htc] using this
    · refine ⟨by simp [ble_manager_disable_if_idle, hEn, hC],
        by simp [ble_manager_disable_if_idle, hEn, hC, connWaits], ?_⟩
      intro hi
      simpa [ble_manager_disable_if_idle, hEn, hC] using hi

lemma enable_and_wait_facts (e : Env) (cto nto : Nat) (s : St) :
    (ble_manager_enable_and_wait e cto nto s).st.firstConnectionAttempted =
      s.firstConnectionAttempted ∧
    (Inv s → Inv (ble_manager_enable_and_wait e cto nto s).st) := by
  cases hEn : s.btStackEnabled
  · obtain ⟨f1, f2, f3, f4, f5⟩ := enable_stack_facts e.host s
    by_cases hr : (ble_enable_stack e.host s).ret = 0
    · have hen2 := f5 hr
      obtain ⟨w1, w2, w3, w4⟩ := wait_phase_facts e cto (ble_enable_stack e.host s).st
      refine ⟨by simp [ble_manager_enable_and_wait, hEn, hr, w2, f1], ?_⟩
      intro hi
      have := w4 (f4 hi) hen2
      simpa [ble_manager_enable_and_wait, hEn, hr] using this
    · refine ⟨by simp [ble_manager_enable_and_wait, hEn, hr, f1], ?_⟩
      intro hi
      have := f4 hi
      simpa [ble_manager_enable_and_wait, hEn, hr] using this
  · cases hC : s.hasConnections
    · obtain ⟨w1, w2, w3, w4⟩ := wait_phase_facts e cto s
      refine ⟨by simp [ble_manager_enable_and_wait, hEn, hC, w2], ?_⟩
      intro hi
      have := w4 hi hEn
      simpa [ble_manager_enable_and_wait, hEn, hC] using this
    · refine ⟨by simp [ble_manager_enable_and_wait, hEn, hC], ?_⟩
      intro hi
      simpa [ble_manager_enable_and_wait, hEn, hC] using hi

/-! ### Success- and timeout-path characterizations -/

lemma enable_stack_success (h : Host) (s : St) (hbe : h.btEnableErr = 0)
    (hadv : h.advStartErr = 0) (hEn : s.btStackEnabled = false) :
    ble_enable_stack h s =
      if s.advertisingActive then
        { ret := 0, st := { s with ledOn := true, btStackEnabled := true },
          evs := [Ev.btEnable] }
      else
        { ret := 0,
          st := { s with ledOn := true, advertisingActive := true, btStackEnabled := true },
          evs := [Ev.btEnable, Ev.advStart] } := by
  rcases s with ⟨a1, a2, a3, a4, a5, a6, a7, a8, a9⟩
  cases a3 <;> simp_all [ble_enable_stack, ble_advertising_start, ble_led_set]

lemma disable_stack_success (h : Host) (s : St) (hbd : h.btDisableErr = 0)
    (hEn : s.btStackEnabled = true) (hC : s.hasConnections = false) :
    ble_disable_stack h s =
      { ret := 0,
        st := { s with ledOn := false, advertisingActive := false, btStackEnabled := false },
        evs := [Ev.advStop, Ev.btDisable] } := by
  rcases s with ⟨a1, a2, a3, a4, a5, a6, a7, a8, a9⟩
  cases a3 <;> simp_all [ble_disable_stack, ble_advertising_stop, ble_led_set]

lemma disable_if_idle_disables (e : Env) (s : St) (hR : e.raceConn = none)
    (hbd : e.host.btDisableErr = 0) (hEn : s.btStackEnabled = true)
    (hC : s.hasConnections = false) :
    ble_manager_disable_if_idle e s =
      { ret := 0,
        st := { s with ledOn := false, advertisingActive := false, btStackEnabled := false },
        evs := [Ev.advStop, Ev.btDisable] } := by
  simp [ble_manager_disable_if_idle, hEn, hC, hR,
    disable_stack_success e.host s hbd hEn hC]

lemma wait_phase_timeout (e : Env) (cto : Nat) (s : St) (hA : e.arrival = none)
    (hC : s.hasConnections = false) :
    ble_manager_wait_phase e cto s =
      { ret := -ETIMEDOUT, st := s, evs := [Ev.connWait cto] } := by
  unfold ble_manager_wait_phase
  rw [pollConn_no_arrival e _ 0 s hA hC]
  rfl

lemma enable_and_wait_timeout (e : Env) (cto nto : Nat) (s : St)
    (hA : e.arrival = none) (hC : s.hasConnections = false)
    (hEn : s.btStackEnabled = true) :
    ble_manager_enable_and_wait e cto nto s =
      { ret := -ETIMEDOUT, st := s, evs := [Ev.connWait cto] } := by
  simp [ble_manager_enable_and_wait, hEn, hC, wait_phase_timeout e cto s hA hC]

lemma ensure_after_enable_timeout (e : Env) (s1 : St) (hA : e.arrival = none)
    (hR : e.raceConn = none) (hbd : e.host.btDisableErr = 0)
    (hEn : s1.btStackEnabled = true) (hC : s1.hasConnections = false) :
    ensure_after_enable e s1 =
      { ret := -ETIMEDOUT,
        st := { s1 with
                firstConnectionAttempted := true
                ledOn := false
                advertisingActive := false
                btStackEnabled := false },
        evs := [Ev.connWait (if s1.firstConnectionAttempted then
                  DEFAULT_CONNECTION_TIMEOUT_MS else FIRST_CONNECTION_TIMEOUT_MS),
                Ev.advStop, Ev.btDisable] } := by
  rcases s1 with ⟨a1, a2, a3, a4, a5, a6, a7, a8, a9⟩
  simp only at hEn hC
  subst hEn
  subst hC
  cases a5
  · have hw := enable_and_wait_timeout e FIRST_CONNECTION_TIMEOUT_MS
      DEFAULT_NOTIFICATION_TIMEOUT_MS ⟨true, false, a3, a4, true, a6, a7, a8, a9⟩
      hA rfl rfl
    have hd := disable_if_idle_disables e ⟨true, false, a3, a4, true, a6, a7, a8, a9⟩
      hR hbd rfl rfl
    dsimp only at hw hd
    simp [ensure_after_enable, hw, hd, ETIMEDOUT]
  · have hw := enable_and_wait_timeout e DEFAULT_CONNECTION_TIMEOUT_MS
      DEFAULT_NOTIFICATION_TIMEOUT_MS ⟨true, false, a3, a4, true, a6, a7, a8, a9⟩
      hA rfl rfl
    have hd := disable_if_idle_disables e ⟨true, false, a3, a4, true, a6, a7, a8, a9⟩
      hR hbd rfl rfl
    dsimp only at hw hd
    simp [ensure_after_enable, hw, hd, ETIMEDOUT]

lemma ensure_connection_timeout (e : Env) (s : St) (hA : e.arrival = none)
    (hR : e.raceConn = none) (hbe : e.host.btEnableErr = 0)
    (hadv : e.host.advStartErr = 0) (hbd : e.host.btDisableErr = 0)
    (hC : s.hasConnections = false) :
    (ble_manager_ensure_connection e s).ret = -ETIMEDOUT ∧
    (ble_manager_ensure_connection e s).st.btStackEnabled = false ∧
    (ble_manager_ensure_connection e s).evs.filter Ev.isTx = [] := by
  rcases s with ⟨a1, a2, a3, a4, a5, a6, a7, a8, a9⟩
  simp only at hC
  subst hC
  cases a1
  · cases a3
    · have hes := enable_stack_success e.host ⟨false, false, false, a4, a5, a6, a7, a8, a9⟩
        hbe hadv rfl
      simp only [show (⟨false, false, false, a4, a5, a6, a7, a8, a9⟩ : St).advertisingActive
        = false from rfl, Bool.false_eq_true, if_false] at hes
      have hw := ensure_after_enable_timeout e ⟨true, false, true, true, a5, a6, a7, a8, a9⟩
        hA hR hbd rfl rfl
      dsimp only at hw
      simp [ble_manager_ensure_connection, hes, hw, Ev.isTx, ETIMEDOUT]
    · have hes := enable_stack_success e.host ⟨false, false, true, a4, a5, a6, a7, a8, a9⟩
        hbe hadv rfl
      simp only [show (⟨false, false, true, a4, a5, a6, a7, a8, a9⟩ : St).advertisingActive
        = true from rfl, if_true] at hes
      have hw := ensure_after_enable_timeout e ⟨true, false, true, true, a5, a6, a7, a8, a9⟩
        hA hR hbd rfl rfl
      dsimp only at hw
      simp [ble_manager_ensure_connection, hes, hw, Ev.isTx, ETIMEDOUT]
  · have hw := ensure_after_enable_timeout e ⟨true, false, a3, a4, a5, a6, a7, a8, a9⟩
      hA hR hbd rfl rfl
    dsimp only at hw
    simp [ble_manager_ensure_connection, hw, Ev.isTx, ETIMEDOUT]

/-! ### The Manager's hard invariant holds in every reachable state -/

lemma inv_flag_set (s : St) (hi : Inv s) :
    Inv { s with firstConnectionAttempted := true } := by
  simpa [Inv] using hi

lemma inv_ensure_after_enable (e : Env) (s1 : St) (hi : Inv s1) :
    Inv (ensure_after_enable e s1).st := by
  rcases s1 with ⟨a1, a2, a3, a4, a5, a6, a7, a8, a9⟩
  cases a2
  · cases a5
    · have hi2 : Inv ⟨a1, false, a3, a4, true, a6, a7, a8, a9⟩ := by
        simpa [Inv] using hi
      obtain ⟨w1, w2⟩ := enable_and_wait_facts e FIRST_CONNECTION_TIMEOUT_MS
        DEFAULT_NOTIFICATION_TIMEOUT_MS ⟨a1, false, a3, a4, true, a6, a7, a8, a9⟩
      by_cases hw : (ble_manager_enable_and_wait e FIRST_CONNECTION_TIMEOUT_MS
          DEFAULT_NOTIFICATION_TIMEOUT_MS ⟨a1, false, a3, a4, true, a6, a7, a8, a9⟩).ret = 0
      · have := w2 hi2
        simpa [ensure_after_enable, hw] using this
      · obtain ⟨d1, d2, d3⟩ := disable_if_idle_facts e
          (ble_manager_enable_and_wait e FIRST_CONNECTION_TIMEOUT_MS
            DEFAULT_NOTIFICATION_TIMEOUT_MS ⟨a1, false, a3, a4, true, a6, a7, a8, a9⟩).st
        have := d3 (w2 hi2)
        simpa [ensure_after_enable, hw] using this
    · obtain ⟨w1, w2⟩ := enable_and_wait_facts e DEFAULT_CONNECTION_TIMEOUT_MS
        DEFAULT_NOTIFICATION_TIMEOUT_MS ⟨a1, false, a3, a4, true, a6, a7, a8, a9⟩
      by_cases hw : (ble_manager_enable_and_wait e DEFAULT_CONNECTION_TIMEOUT_MS
          DEFAULT_NOTIFICATION_TIMEOUT_MS ⟨a1, false, a3, a4, true, a6, a7, a8, a9⟩).ret = 0
      · have := w2 hi
        simpa [ensure_after_enable, hw] using this
      · obtain ⟨d1, d2, d3⟩ := disable_if_idle_facts e
          (ble_manager_enable_and_wait e DEFAULT_CONNECTION_TIMEOUT_MS
            DEFAULT_NOTIFICATION_TIMEOUT_MS ⟨a1, false, a3, a4, true, a6, a7, a8, a9⟩).st
        have := d3 (w2 hi)
        simpa [ensure_after_enable, hw] using this
  · simpa [ensure_after_enable] using hi

lemma inv_ensure_connection (e : Env) (s : St) (hi : Inv s) :
    Inv (ble_manager_ensure_connection e s).st := by
  cases hEn : s.btStackEnabled
  · obtain ⟨f1, f2, f3, f4, f5⟩ := enable_stack_facts e.host s
    by_cases hr : (ble_enable_stack e.host s).ret = 0
    · have := inv_ensure_after_enable e (ble_enable_stack e.host s).st (f4 hi)
      simpa [ble_manager_ensure_connection, hEn, hr] using this
    · have := f4 hi
      simpa [ble_manager_ensure_connection, hEn, hr] using this
  · have := inv_ensure_after_enable e s hi
    simpa [ble_manager_ensure_connection, hEn] using this

lemma inv_send_sensor_data (e : Env) (hr sp : Nat) (s : St) (hi : Inv s) :
    Inv (ble_manager_send_sensor_data e hr sp s).st := by
  have h1 := inv_ensure_connection e s hi
  by_cases hret : (ble_manager_ensure_connection e s).ret = 0
  · obtain ⟨d1, d2, d3⟩ := disable_if_idle_facts e (ble_manager_ensure_connection e s).st
    have := d3 h1
    simpa [ble_manager_send_sensor_data, hret] using this
  · simpa [ble_manager_send_sensor_data, hret] using h1

lemma inv_wait_for_first (e : Env) (s : St) (hi : Inv s) :
    Inv (ble_manager_wait_for_first_connection e s).st := by
  obtain ⟨f1, f2, f3, f4, f5⟩ := enable_stack_facts e.host s
  by_cases hr : (ble_enable_stack e.host s).ret = 0
  · obtain ⟨w1, w2⟩ := enable_and_wait_facts e FIRST_CONNECTION_TIMEOUT_MS
      DEFAULT_NOTIFICATION_TIMEOUT_MS (ble_enable_stack e.host s).st
    by_cases hw : (ble_manager_enable_and_wait e FIRST_CONNECTION_TIMEOUT_MS
        DEFAULT_NOTIFICATION_TIMEOUT_MS (ble_enable_stack e.host s).st).ret = 0
    · have := inv_flag_set _ (w2 (f4 hi))
      simpa [ble_manager_wait_for_first_connection, hr, hw] using this
    · obtain ⟨d1, d2, d3⟩ := disable_if_idle_facts e
        (ble_manager_enable_and_wait e FIRST_CONNECTION_TIMEOUT_MS
          DEFAULT_NOTIFICATION_TIMEOUT_MS (ble_enable_stack e.host s).st).st
      have := inv_flag_set _ (d3 (w2 (f4 hi)))
      simpa [ble_manager_wait_for_first_connection, hr, hw] using this
  · simpa [ble_manager_wait_for_first_connection, hr] using f4 hi

lemma inv_disconnected (e : Env) (c reason : Nat) (s : St) (hi : Inv s) :
    Inv (disconnected e c reason s).1 := by
  have hi3 : Inv { s with
      hrsCurrentConn := none
      spo2CurrentConn := none
      hasConnections := false } := by
    refine ⟨by simp, ?_⟩
    intro ha
    exact hi.2 (by simpa using ha)
  obtain ⟨d1, d2, d3⟩ := disable_if_idle_facts e
    { s with
      hrsCurrentConn := none
      spo2CurrentConn := none
      hasConnections := false }
  have := d3 hi3
  simpa [disconnected, hrs_set_connection, spo2_set_connection,
    ble_manager_on_disconnected] using this

/-- Every sequentially reachable state satisfies the hard invariant: a live
connection (and likewise active advertising) implies the radio is enabled. -/
lemma reachable_inv {s : St} (h : Reachable s) : Inv s := by
  induction h with
  | boot => exact ⟨fun h => by simp [St.boot] at h, fun h => by simp [St.boot] at h⟩
  | send e hr sp hs ih => exact inv_send_sensor_data e hr sp _ ih
  | waitFirst e hs ih => exact inv_wait_for_first e _ ih
  | disableIdle e hs ih => exact (disable_if_idle_facts e _).2.2 ih
  | connectEvt h c err hs hadv ih =>
    exact (connected_facts h c err _).2.2.2 ih (ih.2 hadv)
  | disconnectEvt e c reason hs ih => exact inv_disconnected e c reason _ ih
  | cccEvt v hs ih => simpa [Inv, spo2_ccc_cfg_changed] using ih
  | spo2Reg h hs ih => simpa [spo2_service_register] using ih
  | spo2Unreg h hs ih => simpa [spo2_service_unregister] using ih

/-! ### Timeout-selection policy of ensure_connection -/

lemma ensure_after_enable_policy (e : Env) (s1 : St) (hEn : s1.btStackEnabled = true) :
    connWaits (ensure_after_enable e s1).evs ⊆
      [if s1.firstConnectionAttempted then DEFAULT_CONNECTION_TIMEOUT_MS
        else FIRST_CONNECTION_TIMEOUT_MS] ∧
    (ensure_after_enable e s1).st.firstConnectionAttempted =
      (s1.firstConnectionAttempted ||
        !(connWaits (ensure_after_enable e s1).evs).isEmpty) := by
  rcases s1 with ⟨a1, a2, a3, a4, a5, a6, a7, a8, a9⟩
  simp only at hEn
  subst hEn
  cases a2
  · cases a5
    · have hew : ble_manager_enable_and_wait e FIRST_CONNECTION_TIMEOUT_MS
          DEFAULT_NOTIFICATION_TIMEOUT_MS ⟨true, false, a3, a4, true, a6, a7, a8, a9⟩ =
          ble_manager_wait_phase e FIRST_CONNECTION_TIMEOUT_MS
            ⟨true, false, a3, a4, true, a6, a7, a8, a9⟩ := by
        simp [ble_manager_enable_and_wait]
      obtain ⟨p1, p2, p3, p4⟩ := wait_phase_facts e FIRST_CONNECTION_TIMEOUT_MS
        ⟨true, false, a3, a4, true, a6, a7, a8, a9⟩
      obtain ⟨d1, d2, d3⟩ := disable_if_idle_facts e
        (ble_manager_wait_phase e FIRST_CONNECTION_TIMEOUT_MS
          ⟨true, false, a3, a4, true, a6, a7, a8, a9⟩).st
      by_cases hw : (ble_manager_wait_phase e FIRST_CONNECTION_TIMEOUT_MS
          ⟨true, false, a3, a4, true, a6, a7, a8, a9⟩).ret = 0
      · have hres : ensure_after_enable e ⟨true, false, a3, a4, false, a6, a7, a8, a9⟩ =
            { ret := 0,
              st := (ble_manager_wait_phase e FIRST_CONNECTION_TIMEOUT_MS
                ⟨true, false, a3, a4, true, a6, a7, a8, a9⟩).st,
              evs := (ble_manager_wait_phase e FIRST_CONNECTION_TIMEOUT_MS
                ⟨true, false, a3, a4, true, a6, a7, a8, a9⟩).evs } := by
          simp [ensure_after_enable, hew, hw]
        rw [hres]
        refine ⟨?_, ?_⟩
        · simp only [p3]
          simp
        · simp only [p2, p3]
          simp
      · have hres : ensure_after_enable e ⟨true, false, a3, a4, false, a6, a7, a8, a9⟩ =
            { ret := -ETIMEDOUT,
              st := (ble_manager_disable_if_idle e
                (ble_manager_wait_phase e FIRST_CONNECTION_TIMEOUT_MS
                  ⟨true, false, a3, a4, true, a6, a7, a8, a9⟩).st).st,
              evs := (ble_manager_wait_phase e FIRST_CONNECTION_TIMEOUT_MS
                  ⟨true, false, a3, a4, true, a6, a7, a8, a9⟩).evs ++
                (ble_manager_disable_if_idle e
                  (ble_manager_wait_phase e FIRST_CONNECTION_TIMEOUT_MS
                    ⟨true, false, a3, a4, true, a6, a7, a8, a9⟩).st).evs } := by
          simp [ensure_after_enable, hew, hw]
        rw [hres]
        refine ⟨?_, ?_⟩
        · simp only [connWaits_append, p3, d2]
          simp
        · simp only [connWaits_append, p3, d2, d1, p2]
          simp
    · have hew : ble_manager_enable_and_wait e DEFAULT_CONNECTION_TIMEOUT_MS
          DEFAULT_NOTIFICATION_TIMEOUT_MS ⟨true, false, a3, a4, true, a6, a7, a8, a9⟩ =
          ble_manager_wait_phase e DEFAULT_CONNECTION_TIMEOUT_MS
            ⟨true, false, a3, a4, true, a6, a7, a8, a9⟩ := by
        simp [ble_manager_enable_and_wait]
      obtain ⟨p1, p2, p3, p4⟩ := wait_phase_facts e DEFAULT_CONNECTION_TIMEOUT_MS
        ⟨true, false, a3, a4, true, a6, a7, a8, a9⟩
      obtain ⟨d1, d2, d3⟩ := disable_if_idle_facts e
        (ble_manager_wait_phase e DEFAULT_CONNECTION_TIMEOUT_MS
          ⟨true, false, a3, a4, true, a6, a7, a8, a9⟩).st
      by_cases hw : (ble_manager_wait_phase e DEFAULT_CONNECTION_TIMEOUT_MS
          ⟨true, false, a3, a4, true, a6, a7, a8, a9⟩).ret = 0
      · have hres : ensure_after_enable e ⟨true, false, a3, a4, true, a6, a7, a8, a9⟩ =
            { ret := 0,
              st := (ble_manager_wait_phase e DEFAULT_CONNECTION_TIMEOUT_MS
                ⟨true, false, a3, a4, true, a6, a7, a8, a9⟩).st,
              evs := (ble_manager_wait_phase e DEFAULT_CONNECTION_TIMEOUT_MS
                ⟨true, false, a3, a4, true, a6, a7, a8, a9⟩).evs } := by
          simp [ensure_after_enable, hew, hw]
        rw [hres]
        refine ⟨?_, ?_⟩
        · simp only [p3]
          simp
        · simp only [p2, p3]
          simp
      · have hres : ensure_after_enable e ⟨true, false, a3, a4, true, a6, a7, a8, a9⟩ =
            { ret := -ETIMEDOUT,
              st := (ble_manager_disable_if_idle e
                (ble_manager_wait_phase e DEFAULT_CONNECTION_TIMEOUT_MS
                  ⟨true, false, a3, a4, true, a6, a7, a8, a9⟩).st).st,
              evs := (ble_manager_wait_phase e DEFAULT_CONNECTION_TIMEOUT_MS
                  ⟨true, false, a3, a4, true, a6, a7, a8, a9⟩).evs ++
                (ble_manager_disable_if_idle e
                  (ble_manager_wait_phase e DEFAULT_CONNECTION_TIMEOUT_MS
                    ⟨true, false, a3, a4, true, a6, a7, a8, a9⟩).st).evs } := by
          simp [ensure_after_enable, hew, hw]
        rw [hres]
        refine ⟨?_, ?_⟩
        · simp only [connWaits_append, p3, d2]
          simp
        · simp only [connWaits_append, p3, d2, d1, p2]
          simp
  · have hres : ensure_after_enable e ⟨true, true, a3, a4, a5, a6, a7, a8, a9⟩ =
        { ret := 0, st := ⟨true, true, a3, a4, a5, a6, a7, a8, a9⟩, evs := [] } := by
      simp [ensure_after_enable]
    rw [hres]
    refine ⟨by simp [connWaits], by simp [connWaits]⟩

/-! ### The claims -/

/-- Claim C1, counterexample: with no peer present and an all-success host,
`ble_manager_send_sensor_data(75, 97)` from the boot state does not return
success: the connection timeout is propagated as an error, contradicting the
claim that the call reports success. -/
theorem send_sensor_data_timeout_not_success :
    (ble_manager_send_sensor_data envNoPeer 75 97 St.boot).ret ≠ 0 := by decide

/-- Claim C1, amended: when no peer connects within the connection timeout and
the host operations succeed, `ble_manager_send_sensor_data` returns
-ETIMEDOUT (the timeout is propagated as an error, not absorbed as success),
sends nothing to either GATT service, and leaves the radio disabled, for every
heartrate and spo2 input. -/
theorem send_sensor_data_timeout_behavior (e : Env) (heartrate spo2 : Nat) (s : St)
    (hA : e.arrival = none) (hR : e.raceConn = none)
    (hbe : e.host.btEnableErr = 0) (hadv : e.host.advStartErr = 0)
    (hbd : e.host.btDisableErr = 0) (hC : s.hasConnections = false) :
    (ble_manager_send_sensor_data e heartrate spo2 s).ret = -ETIMEDOUT ∧
    (ble_manager_send_sensor_data e heartrate spo2 s).evs.filter Ev.isTx = [] ∧
    (ble_manager_send_sensor_data e heartrate spo2 s).st.btStackEnabled = false := by
  obtain ⟨h1, h2, h3⟩ := ensure_connection_timeout e s hA hR hbe hadv hbd hC
  have hne : ¬ (ble_manager_ensure_connection e s).ret = 0 := by
    rw [h1]
    decide
  have hres : ble_manager_send_sensor_data e heartrate spo2 s =
      ble_manager_ensure_connection e s := by
    simp [ble_manager_send_sensor_data, hne]
  rw [hres]
  exact ⟨h1, h3, h2⟩

/-- Claim C1, witness at a concrete input: boot state, no peer, inputs (75, 97). -/
theorem send_sensor_data_timeout_behavior_witness :
    (ble_manager_send_sensor_data envNoPeer 75 97 St.boot).ret = -ETIMEDOUT ∧
    (ble_manager_send_sensor_data envNoPeer 75 97 St.boot).evs.filter Ev.isTx = [] ∧
    (ble_manager_send_sensor_data envNoPeer 75 97 St.boot).st.btStackEnabled = false :=
  send_sensor_data_timeout_behavior envNoPeer 75 97 St.boot rfl rfl rfl rfl rfl rfl

/-- Claim C2, counterexample: the input 65636, an integer greater than 2047,
is not encoded with mantissa clamped to 2047: the (int16_t) cast wraps it to
100 before the clamp, so the encoding is 100. -/
theorem float_to_sfloat_wrap_counterexample :
    (2047 : Int) < 65636 ∧ float_to_sfloat 65636 = 100 ∧
    float_to_sfloat 65636 ≠ 2047 := by decide

/-- Claim C2, amended: encode_sfloat maps 0 to 0x07FF; every integer v with
1 <= v <= 2047 to a word whose low 12 bits equal v and whose high 4 bits are
0; every v with 2047 < v <= 32767 is clamped to mantissa 2047 and every v with
-32768 <= v < -2048 to mantissa -2048 (0x800 in two's complement), exponent 0.
Inputs beyond the int16 range first wrap through the (int16_t) cast, so the
clamping claim holds only inside it. -/
theorem float_to_sfloat_reference_spec :
    float_to_sfloat 0 = 0x07FF ∧
    (∀ v : Int, 1 ≤ v → v ≤ 2047 →
      float_to_sfloat v % 4096 = v.toNat ∧ float_to_sfloat v / 4096 = 0) ∧
    (∀ v : Int, 2047 < v → v ≤ 32767 → float_to_sfloat v = 2047) ∧
    (∀ v : Int, -32768 ≤ v → v < -2048 → float_to_sfloat v = 0x0800) := by
  refine ⟨rfl, ?_, ?_, ?_⟩
  · intro v h1 h2
    have hne : ¬ v = 0 := by omega
    have hval : float_to_sfloat v = v.toNat := by
      simp only [float_to_sfloat, toInt16, if_neg hne]
      split_ifs <;> omega
    rw [hval]
    constructor <;> omega
  · intro v h1 h2
    have hne : ¬ v = 0 := by omega
    simp only [float_to_sfloat, toInt16, if_neg hne]
    split_ifs <;> omega
  · intro v h1 h2
    have hne : ¬ v = 0 := by omega
    simp only [float_to_sfloat, toInt16, if_neg hne]
    split_ifs <;> omega

/-- Claim C3: for spo2_value <= 100 and pulse_rate <= 300, with notifications
or indications enabled, spo2_send transmits exactly one message whose 7-byte
payload is flags 0x03, SFLOAT(spo2) little-endian, SFLOAT(pulse rate)
little-endian, and measurement status 0x0001 little-endian. -/
theorem spo2_send_plx_payload (s : St) (v p : Nat) (hv : v ≤ 100) (hp : p ≤ 300)
    (hen : s.spo2NotificationsEnabled = true ∨ s.spo2IndicationsEnabled = true) :
    (spo2_send s v p).map Ev.payload =
      [some (0x03 :: le16 (float_to_sfloat (Int.ofNat v)) ++
        le16 (float_to_sfloat (Int.ofNat p)) ++ le16 0x0001)] := by
  rcases s with ⟨a1, a2, a3, a4, a5, a6, a7, a8, a9⟩
  simp only at hen
  cases a6 <;> cases a7 <;> rcases a8 with _ | c <;>
    simp_all [spo2_send, spo2_payload, Ev.payload] <;>
    rw [show (if 100 < v then (100 : Int) else (v : Int)) = (v : Int) from by
          split <;> omega,
        show (if 300 < p then (300 : Int) else (p : Int)) = (p : Int) from by
          split <;> omega]

/-- Claim C3, witness: spo2 = 98, pulse = 72 with notifications enabled. -/
theorem spo2_send_plx_payload_witness :
    (spo2_send { St.boot with spo2NotificationsEnabled := true } 98 72).map Ev.payload =
      [some (0x03 :: le16 (float_to_sfloat (Int.ofNat 98)) ++
        le16 (float_to_sfloat (Int.ofNat 72)) ++ le16 0x0001)] :=
  spo2_send_plx_payload { St.boot with spo2NotificationsEnabled := true } 98 72
    (by decide) (by decide) (Or.inl rfl)

/-- Claim C4, counterexample: re-registering the SpO2 service while the prior
peer (handle 7) is still alive and subscribed does not reset the subscription
state: after the re-registration both flags are still enabled and the peer is
still bound, contradicting the claimed reset to disabled-no-peer. -/
theorem spo2_service_register_no_reset_counterexample :
    (spo2_service_register hostOK spo2ReRegPre).1 = 0 ∧
    (spo2_service_register hostOK spo2ReRegPre).2.spo2NotificationsEnabled = true ∧
    (spo2_service_register hostOK spo2ReRegPre).2.spo2IndicationsEnabled = true ∧
    (spo2_service_register hostOK spo2ReRegPre).2.spo2CurrentConn = some 7 := by
  decide

/-- Claim C4, amended: spo2_service_register performs no reset at all — it
leaves the subscription flags and the bound peer connection (indeed the whole
tracked state) unchanged, and returns the host's registration error verbatim.
The flags are reset only by the CCC-change callback and the bound peer only by
the disconnect callback. -/
theorem spo2_service_register_preserves_state (h : Host) (s : St) :
    (spo2_service_register h s).2 = s ∧
    (spo2_service_register h s).1 = h.gattRegisterErr :=
  ⟨rfl, rfl⟩

/-- Claim C5: in every reachable state with an active connection,
ble_disable_stack returns -EBUSY and changes nothing: the stack-enabled flag,
the advertising state and the whole rest of the state are left as they were
(only the already-on LED is re-asserted), and no host radio call is made. -/
theorem ble_disable_stack_busy_when_connected (h : Host) (s : St)
    (hr : Reachable s) (hc : s.hasConnections = true) :
    (ble_disable_stack h s).ret = -EBUSY ∧
    (ble_disable_stack h s).st = ble_led_set true s ∧
    (ble_disable_stack h s).evs = [] := by
  have hen := (reachable_inv hr).1 hc
  refine ⟨by simp [ble_disable_stack, hen, hc], by simp [ble_disable_stack, hen, hc],
    by simp [ble_disable_stack, hen, hc]⟩

/-- Claim C5, witness: a concrete reachable connected state. -/
theorem ble_disable_stack_busy_when_connected_witness :
    (ble_disable_stack hostOK connectedDemoSt).ret = -EBUSY ∧
    (ble_disable_stack hostOK connectedDemoSt).st = ble_led_set true connectedDemoSt ∧
    (ble_disable_stack hostOK connectedDemoSt).evs = [] :=
  ble_disable_stack_busy_when_connected hostOK connectedDemoSt
    (Reachable.send envPeerAt0 75 97 Reachable.boot) (by decide)

/-- Claim C6: spo2_send's transmission policy — no-op when neither flag is
enabled; with a bound connection, indicate when indications are enabled, else
notify; with no bound connection, a broadcast notify whenever either flag is
enabled (even when indicate was preferred). -/
theorem spo2_send_transmission_policy (s : St) (v p : Nat) :
    (s.spo2NotificationsEnabled = false → s.spo2IndicationsEnabled = false →
      spo2_send s v p = []) ∧
    (∀ c, s.spo2CurrentConn = some c → s.spo2IndicationsEnabled = true →
      spo2_send s v p = [Ev.spo2Indicate c (spo2_payload (min v 100) (min p 300))]) ∧
    (∀ c, s.spo2CurrentConn = some c → s.spo2IndicationsEnabled = false →
      s.spo2NotificationsEnabled = true →
      spo2_send s v p = [Ev.spo2Notify (some c) (spo2_payload (min v 100) (min p 300))]) ∧
    (s.spo2CurrentConn = none →
      (s.spo2NotificationsEnabled = true ∨ s.spo2IndicationsEnabled = true) →
      spo2_send s v p = [Ev.spo2Notify none (spo2_payload (min v 100) (min p 300))]) := by
  have hminv : (if v > 100 then 100 else v) = min v 100 := by
    split <;> omega
  have hminp : (if p > 300 then 300 else p) = min p 300 := by
    split <;> omega
  rcases s with ⟨a1, a2, a3, a4, a5, a6, a7, a8, a9⟩
  cases a6 <;> cases a7 <;> rcases a8 with _ | c <;>
    simp_all [spo2_send]

/-- Claim C7: ensure_connection picks the extended 60-second timeout exactly
when the first_connection_attempted latch is still unset (as it is on the very
first invocation ever made) and the 10-second default timeout once the latch
is set; any invocation that announces a connection wait sets the latch, so
every later invocation waits with the default timeout. -/
theorem ensure_connection_timeout_policy (e : Env) (s : St) :
    connWaits (ble_manager_ensure_connection e s).evs ⊆
      [if s.firstConnectionAttempted then DEFAULT_CONNECTION_TIMEOUT_MS
        else FIRST_CONNECTION_TIMEOUT_MS] ∧
    (ble_manager_ensure_connection e s).st.firstConnectionAttempted =
      (s.firstConnectionAttempted ||
        !(connWaits (ble_manager_ensure_connection e s).evs).isEmpty) := by
  cases hEn : s.btStackEnabled
  · obtain ⟨f1, f2, f3, f4, f5⟩ := enable_stack_facts e.host s
    by_cases hr : (ble_enable_stack e.host s).ret = 0
    · obtain ⟨q1, q2⟩ := ensure_after_enable_policy e (ble_enable_stack e.host s).st (f5 hr)
      have hres : ble_manager_ensure_connection e s =
          { ret := (ensure_after_enable e (ble_enable_stack e.host s).st).ret,
            st := (ensure_after_enable e (ble_enable_stack e.host s).st).st,
            evs := (ble_enable_stack e.host s).evs ++
              (ensure_after_enable e (ble_enable_stack e.host s).st).evs } := by
        simp [ble_manager_ensure_connection, hEn, hr]
      rw [hres]
      rw [f1] at q1 q2
      refine ⟨?_, ?_⟩
      · simp only [connWaits_append, f3, List.nil_append]
        exact q1
      · simp only [connWaits_append, f3, List.nil_append]
        exact q2
    · have hres : ble_manager_ensure_connection e s = ble_enable_stack e.host s := by
        simp [ble_manager_ensure_connection, hEn, hr]
      rw [hres]
      refine ⟨by simp [f3], ?_⟩
      rw [f1, f3]
      simp
  · have hres : ble_manager_ensure_connection e s = ensure_after_enable e s := by
      simp [ble_manager_ensure_connection, hEn]
    rw [hres]
    exact ensure_after_enable_policy e s hEn

/-- Claim C8: spo2_send treats out-of-range inputs by clamping — it behaves
exactly as if called with spo2_value capped at 100 and pulse_rate capped at
300 (the call never fails; the clamp is logged). -/
theorem spo2_send_clamps_inputs (s : St) (v p : Nat) :
    spo2_send s v p = spo2_send s (min v 100) (min p 300) := by
  have hv : (if v > 100 then 100 else v) = (if min v 100 > 100 then 100 else min v 100) := by
    split_ifs <;> omega
  have hp : (if p > 300 then 300 else p) = (if min p 300 > 300 then 300 else min p 300) := by
    split_ifs <;> omega
  simp only [spo2_send, hv, hp]

/-- Claim C9: hrs_send always emits exactly one 2-byte HRS measurement whose
first byte is the flags 0x06 (uint8 format, sensor contact detected) and whose
second byte is the heart rate clamped to uint8 (min with 255). -/
theorem hrs_send_payload_spec (s : St) (v : Nat) :
    hrs_send s v = [Ev.hrsNotify s.hrsCurrentConn [0x06, min v 255]] := by
  have h : (if v > 255 then 255 else v) = min v 255 := by
    split <;> omega
  simp [hrs_send, h]

/-- Claim C10: ble_advertising_stop always returns 0 and leaves the
advertising-active flag false, for every host oracle — in particular for any
error bt_le_adv_stop reports, which is never propagated. -/
theorem ble_advertising_stop_always_succeeds (h : Host) (s : St) :
    (ble_advertising_stop h s).ret = 0 ∧
    (ble_advertising_stop h s).st.advertisingActive = false := by
  rw [ble_advertising_stop_eq]
  exact ⟨rfl, rfl⟩

end BLEKardio
